import Mathlib

/-!
Shallow embedding of the rct_analytics frontend (TypeScript) in Lean 4.

Source files embedded:
  - `frontend/src/types` (the `unnamed/part_001` type declarations):
    `AnalysisStatus`, `VariableMapping`, `DataProcessingSettings`,
    `AnalysisSettings`, `AnalysisRequest`, `SimpleSlope`,
    `InteractionResult`, `JobStatus`, `ColumnInfo`.
  - `SettingsPage` (the `unnamed/part_002` component): initial settings,
    default variable mapping, save/load, export/import, `handleNext`.
  - `frontend/src/pages/AnalysisPage.tsx`: start/cancel handlers, the
    status-polling effect, `getStatusText`, the displayed test count.
  - `frontend/src/pages/ResultsPage.tsx`: `applyFilters`,
    `significantResults`, `getSignificanceText`, row highlighting.

JavaScript numbers are modelled as exact rationals (`ℚ`); JSON values as
an inductive tree (`Json`), with `JSON.stringify`/`JSON.parse` treated as
inverse bijections between values and their JSON trees, which is exact on
values that survive JSON serialization.  The backend job orchestrator is
not part of the repository sources; where a claim needs it, it is
modelled from the spec (see `orchStep`).
-/

/-- A JSON value, as produced by `JSON.parse` / consumed by
`JSON.stringify`.  Numbers are exact rationals. -/
inductive Json where
  | null : Json
  | bool : Bool → Json
  | num : ℚ → Json
  | str : String → Json
  | arr : List Json → Json
  | obj : List (String × Json) → Json

/-- `ColumnInfo` from the type declarations: per-column metadata of the
uploaded table. -/
structure ColumnInfo where
  name : String
  data_type : String
  unique_count : ℚ
  missing_count : ℚ
  missing_rate : ℚ
  sample_values : List Json

/-- `VariableMapping` from the type declarations. -/
structure VariableMapping where
  moderators : List String
  outcomes : List String
  intervention : String
deriving DecidableEq

/-- `DataProcessingSettings` from the type declarations. -/
structure DataProcessingSettings where
  center_outcomes : Bool
  center_moderators : Bool
  ordinal_outcomes : List String
  run_sensitivity : Bool
  seed : ℚ
deriving DecidableEq

/-- `AnalysisSettings` from the type declarations. -/
structure AnalysisSettings where
  variable_mapping : VariableMapping
  data_processing : DataProcessingSettings
  fdr_alpha : ℚ
  min_sample_size : ℚ
  generate_plots : Bool
  max_plots : ℚ
deriving DecidableEq

/-- `AnalysisRequest` from the type declarations: the body posted to the
run endpoint. -/
structure AnalysisRequest where
  job_id : String
  settings : AnalysisSettings
deriving DecidableEq

/-- `SimpleSlope` from the type declarations. -/
structure SimpleSlope where
  slope : ℚ
  p_value : ℚ
  ci_lower : ℚ
  ci_upper : ℚ
  cohens_d : ℚ
deriving DecidableEq

/-- `InteractionResult` from the type declarations: one row per tested
(moderator, outcome) pair. -/
structure InteractionResult where
  moderator : String
  outcome : String
  n_used : ℚ
  median : ℚ
  mean : ℚ
  std : ℚ
  beta_interaction : ℚ
  p_interaction : ℚ
  q_interaction : ℚ
  partial_eta2 : ℚ
  simple_slope_low : SimpleSlope
  simple_slope_high : SimpleSlope
  r_squared : ℚ
  adj_r_squared : ℚ
deriving DecidableEq

/-- The declared union type
`AnalysisStatus = 'pending' | 'running' | 'completed' | 'failed'`. -/
inductive AnalysisStatus where
  | pending | running | completed | failed
deriving DecidableEq

/-- The string carried by each member of the `AnalysisStatus` union. -/
def analysisStatusString : AnalysisStatus → String
  | .pending => "pending"
  | .running => "running"
  | .completed => "completed"
  | .failed => "failed"

/-- The set of string literals forming the `AnalysisStatus` union type,
in declaration order. -/
def analysisStatusValues : List String :=
  ["pending", "running", "completed", "failed"]

/-- `JobStatus` from the type declarations: the snapshot returned by the
run endpoint and the status-query endpoint.  The status field is kept as
its runtime string so that out-of-union values can be discussed. -/
structure JobStatus where
  job_id : String
  status : String
  progress : ℚ
  message : String
  created_at : String
  updated_at : String
deriving DecidableEq

/-! ## SettingsPage (`unnamed/part_002`) -/

/-- The initial `AnalysisSettings` passed to `useState` in `SettingsPage`
(lines 9-26 of the component). -/
def initialSettings : AnalysisSettings :=
  { variable_mapping :=
      { moderators := []
        outcomes := []
        intervention := "" }
    data_processing :=
      { center_outcomes := false
        center_moderators := true
        ordinal_outcomes := []
        run_sensitivity := false
        seed := 123 }
    fdr_alpha := 0.05
    min_sample_size := 30
    generate_plots := true
    max_plots := 20 }

/-- `name.match(/^[B-F]$/)`: the name is a single character between
`'B'` and `'F'` inclusive. -/
def matchesModeratorDefault (s : String) : Bool :=
  match s.data with
  | [c] => decide ('B' ≤ c) && decide (c ≤ 'F')
  | _ => false

/-- `name.match(/^[G-R]$/)`: the name is a single character between
`'G'` and `'R'` inclusive. -/
def matchesOutcomeDefault (s : String) : Bool :=
  match s.data with
  | [c] => decide ('G' ≤ c) && decide (c ≤ 'R')
  | _ => false

/-- `result.columns.filter(col => col.name.match(/^[B-F]$/)).map(col => col.name)`
from the `SettingsPage` effect that fills in the default mapping. -/
def defaultModerators (cols : List ColumnInfo) : List String :=
  (cols.filter (fun col => matchesModeratorDefault col.name)).map (fun col => col.name)

/-- `result.columns.filter(col => col.name.match(/^[G-R]$/)).map(col => col.name)`. -/
def defaultOutcomes (cols : List ColumnInfo) : List String :=
  (cols.filter (fun col => matchesOutcomeDefault col.name)).map (fun col => col.name)

/-- `result.columns.find(col => col.name === 'S')?.name || ''`. -/
def defaultIntervention (cols : List ColumnInfo) : String :=
  match cols.find? (fun col => col.name == "S") with
  | some col => col.name
  | none => ""

/-- The default `VariableMapping` installed by the `SettingsPage` effect
on loading the uploaded columns. -/
def defaultMapping (cols : List ColumnInfo) : VariableMapping :=
  { moderators := defaultModerators cols
    outcomes := defaultOutcomes cols
    intervention := defaultIntervention cols }

/-! ### JSON serialization of the settings

`handleSaveSettings` stores `JSON.stringify(settings)` in local storage;
`handleLoadSettings` applies `JSON.parse` to the stored string.  The
embedding works at the level of JSON value trees: `settingsToJson` is
the tree `JSON.parse(JSON.stringify(settings))` evaluates to. -/

/-- Field access on a parsed JSON object. -/
def jsonLookup (fields : List (String × Json)) (key : String) : Option Json :=
  match fields with
  | [] => none
  | (k, v) :: rest => if k = key then some v else jsonLookup rest key

/-- Read a JSON value back as a string. -/
def jsonAsStr : Json → Option String
  | .str s => some s
  | _ => none

/-- Read a JSON value back as a boolean. -/
def jsonAsBool : Json → Option Bool
  | .bool b => some b
  | _ => none

/-- Read a JSON value back as a number. -/
def jsonAsNum : Json → Option ℚ
  | .num q => some q
  | _ => none

/-- Read a JSON array of strings back as a list of strings. -/
def jsonStrList : List Json → Option (List String)
  | [] => some []
  | .str s :: rest => (jsonStrList rest).map (fun l => s :: l)
  | _ :: _ => none

/-- The JSON tree of a `VariableMapping`. -/
def vmToJson (vm : VariableMapping) : Json :=
  .obj [("moderators", .arr (vm.moderators.map .str)),
        ("outcomes", .arr (vm.outcomes.map .str)),
        ("intervention", .str vm.intervention)]

/-- Reading a `VariableMapping` back from its parsed JSON tree. -/
def vmFromJson (j : Json) : Option VariableMapping :=
  match j with
  | .obj fields =>
    match jsonLookup fields "moderators", jsonLookup fields "outcomes",
          jsonLookup fields "intervention" with
    | some (.arr ms), some (.arr os), some i =>
      match jsonStrList ms, jsonStrList os, jsonAsStr i with
      | some moderators, some outcomes, some intervention =>
        some { moderators := moderators, outcomes := outcomes,
               intervention := intervention }
      | _, _, _ => none
    | _, _, _ => none
  | _ => none

/-- The JSON tree of a `DataProcessingSettings`. -/
def dpToJson (dp : DataProcessingSettings) : Json :=
  .obj [("center_outcomes", .bool dp.center_outcomes),
        ("center_moderators", .bool dp.center_moderators),
        ("ordinal_outcomes", .arr (dp.ordinal_outcomes.map .str)),
        ("run_sensitivity", .bool dp.run_sensitivity),
        ("seed", .num dp.seed)]

/-- Reading a `DataProcessingSettings` back from its parsed JSON tree. -/
def dpFromJson (j : Json) : Option DataProcessingSettings :=
  match j with
  | .obj fields =>
    match jsonLookup fields "center_outcomes", jsonLookup fields "center_moderators",
          jsonLookup fields "ordinal_outcomes", jsonLookup fields "run_sensitivity",
          jsonLookup fields "seed" with
    | some co, some cm, some (.arr oo), some rs, some sd =>
      match jsonAsBool co, jsonAsBool cm, jsonStrList oo, jsonAsBool rs,
            jsonAsNum sd with
      | some center_outcomes, some center_moderators, some ordinal_outcomes,
        some run_sensitivity, some seed =>
        some { center_outcomes := center_outcomes,
               center_moderators := center_moderators,
               ordinal_outcomes := ordinal_outcomes,
               run_sensitivity := run_sensitivity, seed := seed }
      | _, _, _, _, _ => none
    | _, _, _, _, _ => none
  | _ => none

/-- The JSON tree of an `AnalysisSettings` (the value
`JSON.stringify(settings)` serializes). -/
def settingsToJson (s : AnalysisSettings) : Json :=
  .obj [("variable_mapping", vmToJson s.variable_mapping),
        ("data_processing", dpToJson s.data_processing),
        ("fdr_alpha", .num s.fdr_alpha),
        ("min_sample_size", .num s.min_sample_size),
        ("generate_plots", .bool s.generate_plots),
        ("max_plots", .num s.max_plots)]

/-- Reading an `AnalysisSettings` back from its parsed JSON tree. -/
def settingsFromJson (j : Json) : Option AnalysisSettings :=
  match j with
  | .obj fields =>
    match jsonLookup fields "variable_mapping", jsonLookup fields "data_processing",
          jsonLookup fields "fdr_alpha", jsonLookup fields "min_sample_size",
          jsonLookup fields "generate_plots", jsonLookup fields "max_plots" with
    | some vm, some dp, some fa, some mss, some gp, some mp =>
      match vmFromJson vm, dpFromJson dp, jsonAsNum fa, jsonAsNum mss,
            jsonAsBool gp, jsonAsNum mp with
      | some variable_mapping, some data_processing, some fdr_alpha,
        some min_sample_size, some generate_plots, some max_plots =>
        some { variable_mapping := variable_mapping,
               data_processing := data_processing, fdr_alpha := fdr_alpha,
               min_sample_size := min_sample_size,
               generate_plots := generate_plots, max_plots := max_plots }
      | _, _, _, _, _, _ => none
    | _, _, _, _, _, _ => none
  | _ => none

/-- Local storage, at the level of parsed JSON values. -/
def Store : Type := String → Option Json

/-- `handleSaveSettings`:
`localStorage.setItem('analysisSettings', JSON.stringify(settings))`. -/
def handleSaveSettings (s : AnalysisSettings) (store : Store) : Store :=
  fun k => if k = "analysisSettings" then some (settingsToJson s) else store k

/-- `handleLoadSettings`: parse `localStorage.getItem('analysisSettings')`
and install it as the current settings (`none` when absent or when the
stored value does not have the settings shape). -/
def handleLoadSettings (store : Store) : Option AnalysisSettings :=
  (store "analysisSettings").bind settingsFromJson

/-- `handleExportSettings`: the JSON document written to the downloaded
`analysis_settings.json` file. -/
def handleExportSettings (s : AnalysisSettings) : Json :=
  settingsToJson s

/-- `handleImportSettings`: parse the chosen file's content and install
it as the current settings. -/
def handleImportSettings (fileContent : Json) : Option AnalysisSettings :=
  settingsFromJson fileContent

/-- `handleNext` (`SettingsPage` lines 124-142): `true` exactly when the
validation block lets the user proceed to the analysis page. -/
def handleNextProceeds (s : AnalysisSettings) : Bool :=
  if s.variable_mapping.moderators.length = 0 then false
  else if s.variable_mapping.outcomes.length = 0 then false
  else if s.variable_mapping.intervention = "" then false
  else true

/-- The configuration-validity predicate claimed for the
settings-confirmation step, written from the claim's words: non-empty
moderators and outcomes, an intervention selected, pairwise-disjoint
roles, and `fdr_alpha`, `min_sample_size`, `max_plots` within their
declared ranges. -/
def specSettingsValid (s : AnalysisSettings) : Bool :=
  !s.variable_mapping.moderators.isEmpty &&
  !s.variable_mapping.outcomes.isEmpty &&
  !(s.variable_mapping.intervention == "") &&
  s.variable_mapping.moderators.all (fun x => !s.variable_mapping.outcomes.contains x) &&
  !(s.variable_mapping.moderators.contains s.variable_mapping.intervention) &&
  !(s.variable_mapping.outcomes.contains s.variable_mapping.intervention) &&
  decide (0 < s.fdr_alpha) && decide (s.fdr_alpha ≤ 0.5) &&
  decide (1 ≤ s.min_sample_size) && decide (0 ≤ s.max_plots)

/-! ## AnalysisPage (`frontend/src/pages/AnalysisPage.tsx`) -/

/-- The React state of `AnalysisPage`: `settings`, `jobStatus`,
`isRunning`, `progress`. -/
structure PageState where
  settings : Option AnalysisSettings
  jobStatus : Option JobStatus
  isRunning : Bool
  progress : ℚ
deriving DecidableEq

/-- `getStatusText` (lines 107-120): the label shown for a runtime
status string, with the `default` branch for values outside the
four-state union. -/
def getStatusText (status : String) : String :=
  if status = "pending" then "待機中"
  else if status = "running" then "実行中"
  else if status = "completed" then "完了"
  else if status = "failed" then "失敗"
  else "不明"

/-- The request object built by `handleStartAnalysis` (lines 62-65):
`{ job_id: uploadResult.job_id, settings: settings }`. -/
def startRequest (jobId : String) (s : AnalysisSettings) : AnalysisRequest :=
  { job_id := jobId, settings := s }

/-- `handleStartAnalysis` (lines 54-74), success path.  `server` models
the run endpoint (`runAnalysis` posts the request to `/api/run` and
returns the response body as a `JobStatus`); the handler stores the
returned snapshot with `setJobStatus(result)`.  With no settings loaded
the handler returns immediately. -/
def handleStartAnalysis (server : AnalysisRequest → JobStatus) (jobId : String)
    (st : PageState) : PageState :=
  match st.settings with
  | none => st
  | some s =>
      { st with isRunning := true, progress := 0,
                jobStatus := some (server (startRequest jobId s)) }

/-- `handleCancelAnalysis` (lines 76-86).  Returns immediately when no
job id is available; otherwise posts the cancel request, and on success
(`ok = true`) sets `isRunning` to `false`.  It never writes `jobStatus`
or `progress`. -/
def handleCancelAnalysis (ok : Bool) (st : PageState) : PageState :=
  match st.jobStatus with
  | none => st
  | some js =>
      if js.job_id = "" then st
      else if ok then { st with isRunning := false } else st

/-- The guard of the polling effect (line 28): the 2-second interval is
installed only while `isRunning && jobStatus?.job_id` is truthy, and is
cleared by the effect cleanup as soon as the guard turns false. -/
def pollEnabled (st : PageState) : Bool :=
  st.isRunning &&
    (match st.jobStatus with
     | none => false
     | some js => !(js.job_id == ""))

/-- One tick of the polling interval (lines 29-46): fetch the status
snapshot, store it, write `progress`, and stop running on `completed`
or `failed`.  When the interval is not installed the state is
untouched. -/
def pollTick (server : String → JobStatus) (st : PageState) : PageState :=
  if pollEnabled st then
    match st.jobStatus with
    | none => st
    | some js =>
        let status := server js.job_id
        let st1 : PageState :=
          { st with jobStatus := some status, progress := status.progress * 100 }
        if status.status = "completed" then { st1 with isRunning := false }
        else if status.status = "failed" then { st1 with isRunning := false }
        else st1
  else st

/-- The test-count line of the details card (line 271):
`moderators.length * outcomes.length`. -/
def totalTestsDisplayed (s : AnalysisSettings) : ℕ :=
  s.variable_mapping.moderators.length * s.variable_mapping.outcomes.length

/-! ## ResultsPage (`frontend/src/pages/ResultsPage.tsx`) -/

/-- The `filter` state of `ResultsPage` (lines 11-15). -/
structure ResultsFilter where
  significant : Bool
  moderator : String
  outcome : String
deriving DecidableEq

/-- The filter state installed by the reset button (line 252). -/
def resetFilter : ResultsFilter :=
  { significant := false, moderator := "", outcome := "" }

/-- `applyFilters` (lines 50-68): chain of three conditional filters
over the full result list.  The string fields disable their filter when
empty (JavaScript truthiness). -/
def applyFilters (f : ResultsFilter) (results : List InteractionResult) :
    List InteractionResult :=
  let l1 :=
    if f.significant then
      results.filter (fun r => decide (r.q_interaction < 0.05))
    else results
  let l2 :=
    if f.moderator == "" then l1
    else l1.filter (fun r => r.moderator == f.moderator)
  if f.outcome == "" then l2
  else l2.filter (fun r => r.outcome == f.outcome)

/-- `significantResults` (line 162):
`result.results.filter(r => r.q_interaction < 0.05)`. -/
def significantResultsOf (results : List InteractionResult) :
    List InteractionResult :=
  results.filter (fun r => decide (r.q_interaction < 0.05))

/-- `getSignificanceText` (lines 137-142). -/
def getSignificanceText (qValue : ℚ) : String :=
  if qValue < 0.001 then "***"
  else if qValue < 0.01 then "**"
  else if qValue < 0.05 then "*"
  else "ns"

/-- The row highlight class (line 303):
`row.q_interaction < 0.05 ? 'bg-green-50' : ''`. -/
def rowHighlightClass (r : InteractionResult) : String :=
  if r.q_interaction < 0.05 then "bg-green-50" else ""

/-! ## Backend job orchestrator, modelled from the spec -/

/-- Modelled from the spec: the five-state job status domain of §3/§4.8
(the backend Job Orchestrator is not among the repository's source
files; only its HTTP callers are). -/
inductive OrchStatus where
  | pending | running | completed | failed | cancelled
deriving DecidableEq

/-- Modelled from the spec: the backend Job record as driven by the
§4.8 batch loop — status, pair counters standing for
`progress = completed_pairs / total_pairs`, and the advisory
cancellation flag of §5. -/
structure OrchJob where
  status : OrchStatus
  completedPairs : ℕ
  totalPairs : ℕ
  cancelRequested : Bool
deriving DecidableEq

/-- Modelled from the spec: one pair-boundary step of the §4.8 state
machine.  Cancellation is cooperative and checked between pairs: a
requested cancellation moves a `pending` or `running` job to
`cancelled`; otherwise a `running` job completes one more pair or, with
all pairs exhausted, transitions to `completed`.  Terminal states
absorb. -/
def orchStep (j : OrchJob) : OrchJob :=
  match j.status with
  | .pending =>
      if j.cancelRequested then { j with status := .cancelled }
      else { j with status := .running }
  | .running =>
      if j.cancelRequested then { j with status := .cancelled }
      else if j.completedPairs < j.totalPairs then
        { j with completedPairs := j.completedPairs + 1 }
      else { j with status := .completed }
  | _ => j

/-- Iterated pair-boundary steps of the orchestrator. -/
def orchIter : ℕ → OrchJob → OrchJob
  | 0, j => j
  | n + 1, j => orchIter n (orchStep j)

/-! ## Concrete values used in counterexamples and witnesses -/

/-- A settings value whose three variable roles all name the same column
and whose numeric parameters are outside their declared ranges. -/
def overlappingSettings : AnalysisSettings :=
  { variable_mapping :=
      { moderators := ["A"], outcomes := ["A"], intervention := "A" }
    data_processing := initialSettings.data_processing
    fdr_alpha := 0.9
    min_sample_size := 0
    generate_plots := true
    max_plots := -1 }

/-- A placeholder simple-slope record. -/
def zeroSlope : SimpleSlope :=
  { slope := 0, p_value := 1, ci_lower := 0, ci_upper := 0, cohens_d := 0 }

/-- A result row whose `q_interaction` (0.1) sits between the fixed
0.05 threshold and a configurable `fdr_alpha` of 0.5. -/
def borderlineResult : InteractionResult :=
  { moderator := "B", outcome := "G", n_used := 40, median := 3, mean := 3,
    std := 1, beta_interaction := 1/2, p_interaction := 0.08,
    q_interaction := 0.1, partial_eta2 := 0.05,
    simple_slope_low := zeroSlope, simple_slope_high := zeroSlope,
    r_squared := 0.2, adj_r_squared := 0.18 }

/-- The significant-only filter state of `ResultsPage`. -/
def significantOnlyFilter : ResultsFilter :=
  { significant := true, moderator := "", outcome := "" }

/-- A concrete running-job snapshot. -/
def cancelDemoJobStatus : JobStatus :=
  { job_id := "job-1", status := "running", progress := 0.2,
    message := "pair 2/10", created_at := "t0", updated_at := "t1" }

/-- A concrete `AnalysisPage` state mid-run. -/
def cancelDemoState : PageState :=
  { settings := some initialSettings, jobStatus := some cancelDemoJobStatus,
    isRunning := true, progress := 20 }

/-- A concrete backend job, running with 2 of 10 pairs done and a
cancellation requested. -/
def cancelDemoJob : OrchJob :=
  { status := .running, completedPairs := 2, totalPairs := 10,
    cancelRequested := true }

/-- A concrete run endpoint returning a pending snapshot for the
submitted job id. -/
def demoServer : AnalysisRequest → JobStatus :=
  fun req =>
    { job_id := req.job_id, status := "pending", progress := 0,
      message := "queued", created_at := "t0", updated_at := "t0" }

/-- A concrete `AnalysisPage` state before the run is started. -/
def demoStartState : PageState :=
  { settings := some initialSettings, jobStatus := none,
    isRunning := false, progress := 0 }

/-! ## Helper lemmas -/

theorem jsonStrList_map (l : List String) : jsonStrList (l.map Json.str) = some l := by
  induction l with
  | nil => rfl
  | cons s rest ih => simp [jsonStrList, ih]

theorem vm_roundtrip (vm : VariableMapping) : vmFromJson (vmToJson vm) = some vm := by
  cases vm with
  | mk ms os iv =>
      simp [vmToJson, vmFromJson, jsonLookup, jsonAsStr, jsonStrList_map]

theorem dp_roundtrip (dp : DataProcessingSettings) :
    dpFromJson (dpToJson dp) = some dp := by
  cases dp with
  | mk co cm oo rs sd =>
      simp [dpToJson, dpFromJson, jsonLookup, jsonAsBool, jsonAsNum, jsonStrList_map]

theorem settings_roundtrip (s : AnalysisSettings) :
    settingsFromJson (settingsToJson s) = some s := by
  cases s with
  | mk vm dp fa mss gp mp =>
      simp [settingsToJson, settingsFromJson, jsonLookup, jsonAsBool, jsonAsNum,
            vm_roundtrip, dp_roundtrip]

theorem mem_defaultModerators {cols : List ColumnInfo} {x : String}
    (hx : x ∈ defaultModerators cols) : matchesModeratorDefault x = true := by
  simp only [defaultModerators, List.mem_map, List.mem_filter] at hx
  obtain ⟨c, ⟨_, hm⟩, rfl⟩ := hx
  exact hm

theorem mem_defaultOutcomes {cols : List ColumnInfo} {x : String}
    (hx : x ∈ defaultOutcomes cols) : matchesOutcomeDefault x = true := by
  simp only [defaultOutcomes, List.mem_map, List.mem_filter] at hx
  obtain ⟨c, ⟨_, hm⟩, rfl⟩ := hx
  exact hm

theorem default_ranges_disjoint (x : String) :
    ¬(matchesModeratorDefault x = true ∧ matchesOutcomeDefault x = true) := by
  rintro ⟨h1, h2⟩
  unfold matchesModeratorDefault at h1
  unfold matchesOutcomeDefault at h2
  rcases hd : x.data with _ | ⟨c, _ | ⟨c2, tl⟩⟩ <;> rw [hd] at h1 h2
  · simp at h1
  · simp only [Bool.and_eq_true, decide_eq_true_eq] at h1 h2
    exact absurd (le_trans h2.1 h1.2) (by decide)
  · simp at h1

theorem defaultIntervention_matches_neither (cols : List ColumnInfo) :
    matchesModeratorDefault (defaultIntervention cols) = false ∧
    matchesOutcomeDefault (defaultIntervention cols) = false := by
  unfold defaultIntervention
  cases hf : cols.find? (fun col => col.name == "S") with
  | none => exact ⟨by decide, by decide⟩
  | some col =>
      have h : col.name = "S" := by simpa using List.find?_some hf
      simp only [h]
      exact ⟨by decide, by decide⟩

theorem orchStep_cancelled {j : OrchJob} (h : j.status = .cancelled) :
    orchStep j = j := by
  unfold orchStep
  rw [h]

theorem orchIter_fixed {j : OrchJob} (h : orchStep j = j) :
    ∀ n, orchIter n j = j := by
  intro n
  induction n with
  | zero => rfl
  | succ n ih => simp [orchIter, h, ih]

theorem filter_comp (p q : InteractionResult → Bool) (l : List InteractionResult) :
    (l.filter p).filter q = l.filter (fun r => p r && q r) := by
  induction l with
  | nil => rfl
  | cons a t ih => by_cases hp : p a <;> by_cases hq : q a <;> simp [hp, hq, ih]

/-! ## Claim theorems -/

/-- C1, counterexample: `'cancelled'` is not a member of the program's
declared job-status domain, and a successful cancellation from a
concrete running state leaves the stored job status unchanged (still
`"running"`), so no cancellation yields a job whose status field holds
`'cancelled'`. -/
theorem c1_claim_counterexample :
    ¬ ("cancelled" ∈ analysisStatusValues) ∧
    (handleCancelAnalysis true cancelDemoState).jobStatus = some cancelDemoJobStatus ∧
    cancelDemoJobStatus.status = "running" :=
  ⟨by decide, rfl, rfl⟩

/-- C1 (amended): the job status domain exposed by the program contains
exactly the four states `pending`, `running`, `completed`, `failed`;
`'cancelled'` is not among them, the cancel handler never writes the
stored job status or progress, and a `'cancelled'` status string is
rendered by `getStatusText` through its unknown-status branch. -/
theorem c1_status_domain :
    analysisStatusValues = ["pending", "running", "completed", "failed"] ∧
    (∀ s : AnalysisStatus, analysisStatusString s ∈ analysisStatusValues) ∧
    ¬ ("cancelled" ∈ analysisStatusValues) ∧
    (∀ ok st, (handleCancelAnalysis ok st).jobStatus = st.jobStatus ∧
              (handleCancelAnalysis ok st).progress = st.progress) ∧
    getStatusText "cancelled" = "不明" := by
  refine ⟨rfl, ?_, by decide, ?_, by decide⟩
  · intro s
    cases s <;> simp [analysisStatusString, analysisStatusValues]
  · intro ok st
    simp only [handleCancelAnalysis]
    split
    · exact ⟨rfl, rfl⟩
    · split
      · exact ⟨rfl, rfl⟩
      · split
        · exact ⟨rfl, rfl⟩
        · exact ⟨rfl, rfl⟩

/-- C5: for every list of uploaded columns, the default variable mapping
computed by the settings page is pairwise disjoint — no column name is
both a default moderator and a default outcome, and the default
intervention is neither a default moderator nor a default outcome. -/
theorem c5_default_mapping_disjoint (cols : List ColumnInfo) :
    (∀ x ∈ (defaultMapping cols).moderators, x ∉ (defaultMapping cols).outcomes) ∧
    (defaultMapping cols).intervention ∉ (defaultMapping cols).moderators ∧
    (defaultMapping cols).intervention ∉ (defaultMapping cols).outcomes := by
  simp only [defaultMapping]
  refine ⟨?_, ?_, ?_⟩
  · intro x hx hx2
    exact default_ranges_disjoint x ⟨mem_defaultModerators hx, mem_defaultOutcomes hx2⟩
  · intro hx
    have h := mem_defaultModerators hx
    rw [(defaultIntervention_matches_neither cols).1] at h
    exact Bool.noConfusion h
  · intro hx
    have h := mem_defaultOutcomes hx
    rw [(defaultIntervention_matches_neither cols).2] at h
    exact Bool.noConfusion h

/-- C6: the initial default `AnalysisSettings` of the settings page have
`fdr_alpha = 0.05 ∈ (0, 0.5]`, `min_sample_size = 30 ≥ 1` and
`max_plots = 20 ≥ 0`. -/
theorem c6_initial_settings_ranges :
    initialSettings.fdr_alpha = 0.05 ∧
    initialSettings.min_sample_size = 30 ∧
    initialSettings.max_plots = 20 ∧
    0 < initialSettings.fdr_alpha ∧ initialSettings.fdr_alpha ≤ 0.5 ∧
    1 ≤ initialSettings.min_sample_size ∧ 0 ≤ initialSettings.max_plots := by
  norm_num [initialSettings]

/-- C7: the total number of interaction tests reported on the analysis
page equals the number of (moderator, outcome) pairs, which is
`m × k` for `m` moderators and `k` outcomes. -/
theorem c7_total_tests (s : AnalysisSettings) :
    totalTestsDisplayed s =
      (List.product s.variable_mapping.moderators s.variable_mapping.outcomes).length ∧
    totalTestsDisplayed s =
      s.variable_mapping.moderators.length * s.variable_mapping.outcomes.length := by
  constructor
  · rw [show List.product s.variable_mapping.moderators s.variable_mapping.outcomes =
        s.variable_mapping.moderators ×ˢ s.variable_mapping.outcomes from rfl,
        List.length_product]
    rfl
  · rfl

/-- C9: saving the settings to local storage and then loading them
restores exactly the saved settings, and importing a previously exported
settings file restores exactly the exported settings. -/
theorem c9_settings_roundtrip (s : AnalysisSettings) (store : Store) :
    handleLoadSettings (handleSaveSettings s store) = some s ∧
    handleImportSettings (handleExportSettings s) = some s := by
  constructor
  · simp [handleLoadSettings, handleSaveSettings, settings_roundtrip]
  · simp [handleImportSettings, handleExportSettings, settings_roundtrip]

/-- C2, counterexample: with the configured `fdr_alpha = 0.5` (inside
the declared range (0, 0.5]) and a result whose `q_interaction = 0.1 <
fdr_alpha`, the claim requires the pair to be counted and marked as
significant, but the results page drops it from the significant-only
filter, counts it as not significant, and labels it `ns` — the
threshold actually used is the fixed constant 0.05. -/
theorem c2_claim_counterexample :
    (0 < (0.5 : ℚ) ∧ (0.5 : ℚ) ≤ 0.5 ∧ borderlineResult.q_interaction < 0.5) ∧
    ¬ (borderlineResult.q_interaction < 0.05) ∧
    significantResultsOf [borderlineResult] = [] ∧
    applyFilters significantOnlyFilter [borderlineResult] = [] ∧
    getSignificanceText borderlineResult.q_interaction = "ns" := by
  have hq : ¬ (borderlineResult.q_interaction < 0.05) := by
    norm_num [borderlineResult]
  have h001 : ¬ (borderlineResult.q_interaction < 0.001) := by
    norm_num [borderlineResult]
  have h01 : ¬ (borderlineResult.q_interaction < 0.01) := by
    norm_num [borderlineResult]
  refine ⟨⟨by norm_num, le_refl _, by norm_num [borderlineResult]⟩, hq, ?_, ?_, ?_⟩
  · simp [significantResultsOf, hq]
  · simp [applyFilters, significantOnlyFilter, hq]
  · simp [getSignificanceText, h001, h01, hq]

/-- C2 (amended): the significance threshold used by the results page —
for the significant-only filter, the significant-result count, the row
highlighting and the star labels — is the fixed constant 0.05,
independent of the configured `fdr_alpha`: a (moderator, outcome) pair
is counted and marked as significant exactly when its `q_interaction`
is below 0.05. -/
theorem c2_fixed_threshold (results : List InteractionResult) (r : InteractionResult) :
    (r ∈ significantResultsOf results ↔ r ∈ results ∧ r.q_interaction < 0.05) ∧
    (r ∈ applyFilters significantOnlyFilter results ↔
       r ∈ results ∧ r.q_interaction < 0.05) ∧
    (rowHighlightClass r = "bg-green-50" ↔ r.q_interaction < 0.05) ∧
    (¬ (getSignificanceText r.q_interaction = "ns") ↔ r.q_interaction < 0.05) := by
  refine ⟨?_, ?_, ?_, ?_⟩
  · simp [significantResultsOf, List.mem_filter]
  · simp [applyFilters, significantOnlyFilter, List.mem_filter]
  · unfold rowHighlightClass
    split_ifs with h <;> simp [h]
  · constructor
    · intro hne
      by_contra hq
      have h001 : ¬ (r.q_interaction < 0.001) := fun h => hq (lt_trans h (by norm_num))
      have h01 : ¬ (r.q_interaction < 0.01) := fun h => hq (lt_trans h (by norm_num))
      exact hne (by simp [getSignificanceText, h001, h01, hq])
    · intro hq hns
      unfold getSignificanceText at hns
      split_ifs at hns <;> simp_all

/-- C3, counterexample: a settings value whose three roles all name the
column `"A"` and whose `fdr_alpha`, `min_sample_size` and `max_plots`
are outside their declared ranges is still allowed to proceed by
`handleNext`, which checks only the three non-emptiness conditions. -/
theorem c3_claim_counterexample :
    handleNextProceeds overlappingSettings = true ∧
    specSettingsValid overlappingSettings = false ∧
    "A" ∈ overlappingSettings.variable_mapping.moderators ∧
    "A" ∈ overlappingSettings.variable_mapping.outcomes ∧
    overlappingSettings.variable_mapping.intervention = "A" ∧
    (0.5 : ℚ) < overlappingSettings.fdr_alpha ∧
    overlappingSettings.min_sample_size < 1 ∧
    overlappingSettings.max_plots < 0 := by
  refine ⟨rfl, rfl, by decide, by decide, rfl, ?_, ?_, ?_⟩
  · norm_num [overlappingSettings]
  · norm_num [overlappingSettings]
  · norm_num [overlappingSettings]

/-- C3 (amended): `handleNext` lets the user proceed exactly when the
moderators are non-empty, the outcomes are non-empty and an
intervention is selected; it performs no disjointness check and no
range check on `fdr_alpha`, `min_sample_size` or `max_plots`. -/
theorem c3_handleNext_checks (s : AnalysisSettings) :
    handleNextProceeds s = true ↔
      (s.variable_mapping.moderators ≠ [] ∧ s.variable_mapping.outcomes ≠ [] ∧
       s.variable_mapping.intervention ≠ "") := by
  unfold handleNextProceeds
  split_ifs with h1 h2 h3 <;> simp_all [List.length_eq_zero]

/-- C10: for every filter state, the filtered result list is exactly
the full result list filtered by the conjunction of the enabled
predicates — hence an order-preserving subsequence of it — and with all
filters off (the reset state) it is the full list unchanged. -/
theorem c10_apply_filters (f : ResultsFilter) (results : List InteractionResult) :
    applyFilters f results =
      results.filter (fun r =>
        (!f.significant || decide (r.q_interaction < 0.05)) &&
        ((f.moderator == "") || (r.moderator == f.moderator)) &&
        ((f.outcome == "") || (r.outcome == f.outcome))) ∧
    (applyFilters f results).Sublist results ∧
    applyFilters resetFilter results = results := by
  have heq : applyFilters f results =
      results.filter (fun r =>
        (!f.significant || decide (r.q_interaction < 0.05)) &&
        ((f.moderator == "") || (r.moderator == f.moderator)) &&
        ((f.outcome == "") || (r.outcome == f.outcome))) := by
    unfold applyFilters
    cases hs : f.significant <;>
      cases hm : (f.moderator == "") <;>
        cases ho : (f.outcome == "") <;>
          simp [hs, hm, ho, filter_comp, Bool.and_comm, Bool.and_left_comm,
                Bool.and_assoc]
  refine ⟨heq, ?_, ?_⟩
  · rw [heq]
    exact List.filter_sublist _
  · simp [applyFilters, resetFilter]

/-- C4: when a cancellation is issued while the job is running and the
cancel call succeeds, the frontend stops running, the polling interval
is no longer enabled and a poll tick can no longer write progress; on
the backend (modelled from the spec, §4.8), the cancellation is honored
at the next pair boundary, after which the status is `cancelled` forever
and the completed-pair count — hence the progress — never changes
again. -/
theorem c4_cancellation (st : PageState) (js : JobStatus)
    (hjs : st.jobStatus = some js) (hid : js.job_id ≠ "")
    (j : OrchJob) (hr : j.status = .running) (hc : j.cancelRequested = true) :
    (handleCancelAnalysis true st).isRunning = false ∧
    pollEnabled (handleCancelAnalysis true st) = false ∧
    (∀ server, pollTick server (handleCancelAnalysis true st) =
                 handleCancelAnalysis true st) ∧
    (orchStep j).status = .cancelled ∧
    (∀ n, (orchIter n (orchStep j)).status = OrchStatus.cancelled ∧
          (orchIter n (orchStep j)).completedPairs = j.completedPairs) := by
  have hcan : handleCancelAnalysis true st = { st with isRunning := false } := by
    simp [handleCancelAnalysis, hjs, hid]
  have hstep : orchStep j = { j with status := .cancelled } := by
    simp [orchStep, hr, hc]
  have habs : orchStep { j with status := OrchStatus.cancelled } =
      { j with status := OrchStatus.cancelled } := orchStep_cancelled rfl
  refine ⟨by rw [hcan], by simp [pollEnabled, hcan], ?_, by rw [hstep], ?_⟩
  · intro server
    simp [pollTick, pollEnabled, hcan]
  · intro n
    rw [hstep, orchIter_fixed habs n]
    exact ⟨rfl, rfl⟩

/-- Witness for C4 at a concrete mid-run state: a running page state
with job id `"job-1"` and a running backend job with 2 of 10 pairs done
and cancellation requested. -/
theorem c4_cancellation_witness :
    cancelDemoState.jobStatus = some cancelDemoJobStatus ∧
    cancelDemoJobStatus.job_id ≠ "" ∧
    cancelDemoJob.status = OrchStatus.running ∧
    cancelDemoJob.cancelRequested = true ∧
    ((handleCancelAnalysis true cancelDemoState).isRunning = false ∧
     pollEnabled (handleCancelAnalysis true cancelDemoState) = false ∧
     (∀ server, pollTick server (handleCancelAnalysis true cancelDemoState) =
                  handleCancelAnalysis true cancelDemoState) ∧
     (orchStep cancelDemoJob).status = .cancelled ∧
     (∀ n, (orchIter n (orchStep cancelDemoJob)).status = OrchStatus.cancelled ∧
           (orchIter n (orchStep cancelDemoJob)).completedPairs =
             cancelDemoJob.completedPairs)) :=
  ⟨rfl, by decide, rfl, rfl,
   c4_cancellation cancelDemoState cancelDemoJobStatus rfl (by decide)
     cancelDemoJob rfl rfl⟩

/-- C8: for every submission with settings loaded, `handleStartAnalysis`
sends exactly the pair `(job_id, settings)` as the body of the run
request, and stores the returned `JobStatus` snapshot unchanged as the
current job status. -/
theorem c8_submit_request (server : AnalysisRequest → JobStatus) (jobId : String)
    (st : PageState) (s : AnalysisSettings) (h : st.settings = some s) :
    (startRequest jobId s).job_id = jobId ∧
    (startRequest jobId s).settings = s ∧
    handleStartAnalysis server jobId st =
      { st with isRunning := true, progress := 0,
                jobStatus := some (server (startRequest jobId s)) } := by
  refine ⟨rfl, rfl, ?_⟩
  simp [handleStartAnalysis, h]

/-- Witness for C8 at a concrete submission: the initial settings,
job id `"j1"`, and a run endpoint answering with a pending snapshot. -/
theorem c8_submit_request_witness :
    demoStartState.settings = some initialSettings ∧
    ((startRequest "j1" initialSettings).job_id = "j1" ∧
     (startRequest "j1" initialSettings).settings = initialSettings ∧
     handleStartAnalysis demoServer "j1" demoStartState =
       { demoStartState with
           isRunning := true
           progress := 0
           jobStatus := some (demoServer (startRequest "j1" initialSettings)) }) :=
  ⟨rfl, c8_submit_request demoServer "j1" demoStartState initialSettings rfl⟩
